import Mathlib

/-!
Verification of the request-admission (rate limiter) core of this repository.

The Go sources are shallowly embedded as pure Lean functions:
* `internal/services/rate_limit_service.go` → `checkRateLimit`, `getRateLimitStatus`
* `internal/middleware/rate_limit.go`       → `rateLimitMW`
* `internal/redis/redis.go`                 → `incrementRateLimit`
* `internal/services/api_key_service.go`    → `validateAPIKey`, `deactivateAPIKey`, `hashAPIKey`

Go `int`/`int64` values are modelled as `Int` (no overflow is at issue in any
claim).  `time.Duration` values are integers counting nanoseconds, and points
in time are integer nanosecond timestamps; `time.Now()` becomes an explicit
`now` parameter.  Calls into the external collaborators (Redis, Postgres) are
modelled by passing the collaborator's response (`Except String _`) or its
state (an association list of rows) explicitly; the SHA-256 digest used by
`hashAPIKey` is implemented in full (FIPS 180-4) so that the hashing claims
are about the actual digest.
-/

namespace RateLimiter

/-- One second expressed in the nanosecond ticks of Go's `time.Duration`. -/
def nanosPerSecond : Int := 1000000000

/-- Model of `config.RateLimitConfig` (internal/config/config.go): the process-wide
defaults.  `defaultWindow` is a `time.Duration`, i.e. nanoseconds. -/
structure RateLimitConfig where
  defaultRequests : Int
  defaultWindow : Int
deriving Repr, DecidableEq

/-- Model of `database.APIKey` (internal/database/models.go).  `createdAt`/`updatedAt`
are irrelevant to every claim and are omitted. -/
structure APIKey where
  id : String
  keyHash : String
  name : String
  rateLimitRequests : Int
  rateLimitWindowSeconds : Int
  isActive : Bool
deriving Repr, DecidableEq

/-- Model of `services.RateLimitResult` (internal/services/rate_limit_service.go,
lines 25–30).  `resetTime` is an absolute nanosecond timestamp. -/
structure RateLimitResult where
  allowed : Bool
  remaining : Int
  resetTime : Int
  limit : Int
deriving Repr, DecidableEq

/-- Effective limit derivation shared verbatim by `CheckRateLimit`
(rate_limit_service.go lines 37, 41–43) and `GetRateLimitStatus`
(lines 83, 86–88): the credential's own `RateLimitRequests` if positive,
else the configured default. -/
def effectiveLimit (cfg : RateLimitConfig) (k : APIKey) : Int :=
  if k.rateLimitRequests ≤ 0 then cfg.defaultRequests else k.rateLimitRequests

/-- Effective window derivation shared verbatim by `CheckRateLimit`
(lines 38, 44–46) and `GetRateLimitStatus` (lines 84, 89–91):
`time.Duration(RateLimitWindowSeconds) * time.Second` if positive, else the
configured default window. -/
def effectiveWindow (cfg : RateLimitConfig) (k : APIKey) : Int :=
  let window := k.rateLimitWindowSeconds * nanosPerSecond
  if window ≤ 0 then cfg.defaultWindow else window

/-- Model of `RateLimitService.CheckRateLimit` (rate_limit_service.go lines 32–70).
The Redis `IncrementRateLimit` call is modelled by its response
`incrResult`; `now` is the value of `time.Now()` at line 62. -/
def checkRateLimit (cfg : RateLimitConfig) (k : APIKey) (now : Int)
    (incrResult : Except String Int) : Except String RateLimitResult :=
  match incrResult with
  | .error e => .error ("failed to check rate limit: " ++ e)
  | .ok currentCount =>
    let limit := effectiveLimit cfg k
    let window := effectiveWindow cfg k
    let allowed := decide (currentCount ≤ limit)
    let remaining := limit - currentCount
    let remaining := if remaining < 0 then 0 else remaining
    .ok ⟨allowed, remaining, now + window, limit⟩

/-- Model of `RateLimitService.GetRateLimitStatus` (rate_limit_service.go lines
72–107).  The Redis `GetRateLimitCount` call is modelled by its response
`peekResult`; a store failure — which includes the `redis.Nil` error for an
absent key — degrades to count 0 (lines 77–80).  The Go function's error
result is always `nil`, hence the body always returns `.ok`. -/
def getRateLimitStatus (cfg : RateLimitConfig) (k : APIKey) (now : Int)
    (peekResult : Except String Int) : Except String RateLimitResult :=
  let currentCount := match peekResult with | .error _ => 0 | .ok c => c
  let limit := effectiveLimit cfg k
  let window := effectiveWindow cfg k
  let allowed := decide (currentCount < limit)
  let remaining := limit - currentCount
  let remaining := if remaining < 0 then 0 else remaining
  .ok ⟨allowed, remaining, now + window, limit⟩

/-- One Redis counter key: its integer value and its remaining time-to-live
in nanoseconds as armed by the last `EXPIRE`. -/
structure RedisEntry where
  count : Int
  ttl : Int
deriving Repr, DecidableEq

/-- The Redis keyspace relevant to the engine: an association list from key
to counter entry. -/
abbrev RedisState := List (String × RedisEntry)

/-- Model of `Client.IncrementRateLimit` (internal/redis/redis.go lines 34–50): the
pipeline executes `INCR key` followed — unconditionally — by
`EXPIRE key window`.  Per the Redis contract, `INCR` creates an absent key
with value 1 and otherwise adds 1, and `EXPIRE` sets the key's
time-to-live.  Returns the post-increment count and the new keyspace. -/
def incrementRateLimit (st : RedisState) (key : String) (window : Int) :
    Int × RedisState :=
  match st.lookup key with
  | none => (1, (key, ⟨1, window⟩) :: st)
  | some e =>
    (e.count + 1,
     st.map (fun p => if p.1 == key then (p.1, ⟨e.count + 1, window⟩) else p))

/-- The parts of an inbound HTTP request inspected by the middleware.  An
empty string models an absent header, as in Go's `Header.Get`. -/
structure Request where
  path : String
  xApiKey : String
  authorization : String
deriving Repr, DecidableEq

/-- The observable per-request outcome of `middleware.RateLimit`: each
constructor corresponds to exactly one terminal branch of the handler. -/
inductive MWOutcome where
  /-- The path bypassed the middleware (`c.Next()` with no other action). -/
  | bypass
  /-- Rejected 401 "API key required". -/
  | missingKey
  /-- Rejected 401 "Invalid API key". -/
  | invalidKey
  /-- Rejected 500 "Rate limit check failed". -/
  | quotaCheckFailed
  /-- Rejected 429 "Rate limit exceeded" with the given `retry_after` seconds. -/
  | rateLimited (retryAfter : Int)
  /-- Request admitted; the resolved credential is put into the context. -/
  | admitted (keyId : String)
deriving Repr, DecidableEq

/-- Credential extraction (rate_limit.go lines 140–148): the `X-API-Key`
header, else the `Authorization` header when it carries a `Bearer ` scheme
(`strings.HasPrefix`/`TrimPrefix`), else absent. -/
def extractAPIKey (req : Request) : String :=
  if req.xApiKey = "" then
    if req.authorization ≠ "" ∧ req.authorization.take 7 = "Bearer " then
      req.authorization.drop 7
    else ""
  else req.xApiKey

/-- The `retry_after` computation (rate_limit.go line 191):
`int(time.Until(resetTime).Seconds())` — the nanosecond distance to the
reset time divided by 1e9 with truncation toward zero, which is exactly
`Int.tdiv`. -/
def retryAfterSeconds (resetTime now : Int) : Int :=
  Int.tdiv (resetTime - now) nanosPerSecond

/-- Model of `middleware.RateLimit` (internal/middleware/rate_limit.go lines
132–201).  The two collaborator calls are modelled by their responses:
`validateResult` for `apiKeyService.ValidateAPIKey` and `checkResult` for
`rateLimitService.CheckRateLimit`; `now` is the value of `time.Now()`
inside `time.Until` at line 191. -/
def rateLimitMW (req : Request) (validateResult : Except String APIKey)
    (checkResult : Except String RateLimitResult) (now : Int) : MWOutcome :=
  if req.path = "/health" ∨ req.path = "/metrics" then .bypass
  else
    let apiKey := extractAPIKey req
    if apiKey = "" then .missingKey
    else
      match validateResult with
      | .error _ => .invalidKey
      | .ok record =>
        match checkResult with
        | .error _ => .quotaCheckFailed
        | .ok r =>
          if !r.allowed then .rateLimited (retryAfterSeconds r.resetTime now)
          else .admitted record.id

end RateLimiter

namespace SHA256

/-! A complete executable SHA-256 (FIPS 180-4) over `Nat`, reduced mod 2^32
where the 32-bit words overflow.  This models Go's `crypto/sha256` used by
`APIKeyService.hashAPIKey`. -/

/-- Reduce to a 32-bit word. -/
def mod32 (x : Nat) : Nat := x % 4294967296

/-- Right rotation of a 32-bit word by `n` bits. -/
def rotateWord (n x : Nat) : Nat := mod32 ((x >>> n) ||| (x <<< (32 - n)))

/-- The big Sigma-0 round function. -/
def sumA (x : Nat) : Nat := rotateWord 2 x ^^^ rotateWord 13 x ^^^ rotateWord 22 x

/-- The big Sigma-1 round function. -/
def sumE (x : Nat) : Nat := rotateWord 6 x ^^^ rotateWord 11 x ^^^ rotateWord 25 x

/-- The small sigma-0 schedule function. -/
def mixA (x : Nat) : Nat := rotateWord 7 x ^^^ rotateWord 18 x ^^^ (x >>> 3)

/-- The small sigma-1 schedule function. -/
def mixE (x : Nat) : Nat := rotateWord 17 x ^^^ rotateWord 19 x ^^^ (x >>> 10)

/-- The choose function; complementing `x` on 32-bit words is
`x ^^^ 4294967295`. -/
def chooseFn (x y z : Nat) : Nat := (x &&& y) ^^^ ((x ^^^ 4294967295) &&& z)

/-- The majority function. -/
def majorityFn (x y z : Nat) : Nat := (x &&& y) ^^^ (x &&& z) ^^^ (y &&& z)

/-- The 64 round constants of FIPS 180-4, in decimal. -/
def roundK : List Nat :=
  [1116352408, 1899447441, 3049323471, 3921009573, 961987163, 1508970993,
   2453635748, 2870763221, 3624381080, 310598401, 607225278, 1426881987,
   1925078388, 2162078206, 2614888103, 3248222580, 3835390401, 4022224774,
   264347078, 604807628, 770255983, 1249150122, 1555081692, 1996064986,
   2554220882, 2821834349, 2952996808, 3210313671, 3336571891, 3584528711,
   113926993, 338241895, 666307205, 773529912, 1294757372, 1396182291,
   1695183700, 1986661051, 2177026350, 2456956037, 2730485921, 2820302411,
   3259730800, 3345764771, 3516065817, 3600352804, 4094571909, 275423344,
   430227734, 506948616, 659060556, 883997877, 958139571, 1322822218,
   1537002063, 1747873779, 1955562222, 2024104815, 2227730452, 2361852424,
   2428436474, 2756734187, 3204031479, 3329325298]

/-- Append the `0x80` byte, the zero padding and the 64-bit big-endian bit
length, so the result's length is a multiple of 64 bytes. -/
def padMessage (msg : List Nat) : List Nat :=
  let L := msg.length
  let zeros := (119 - (L % 64)) % 64
  let bitLen := 8 * L
  msg ++ [128] ++ List.replicate zeros 0 ++
    [(bitLen >>> 56) % 256, (bitLen >>> 48) % 256, (bitLen >>> 40) % 256,
     (bitLen >>> 32) % 256, (bitLen >>> 24) % 256, (bitLen >>> 16) % 256,
     (bitLen >>> 8) % 256, bitLen % 256]

/-- Split into 64-byte blocks; the fuel argument (`l.length` suffices) keeps
the recursion structural so it evaluates by reduction. -/
def chunksAux : Nat → List Nat → List (List Nat)
  | 0, _ => []
  | _, [] => []
  | fuel + 1, l => l.take 64 :: chunksAux fuel (l.drop 64)

def chunks64 (l : List Nat) : List (List Nat) := chunksAux l.length l

/-- Big-endian assembly of bytes into 32-bit words. -/
def toWords : List Nat → List Nat
  | a :: b :: c :: d :: rest =>
    (((a <<< 24) ||| (b <<< 16)) ||| ((c <<< 8) ||| d)) :: toWords rest
  | _ => []

/-- Message-schedule extension, building the word list in reverse so each
new word only needs the heads of the accumulator: with the most recent word
first, `w[t-2]`, `w[t-7]`, `w[t-15]`, `w[t-16]` sit at reversed indices
1, 6, 14, 15. -/
def scheduleRev : Nat → List Nat → List Nat
  | 0, rev => rev
  | n + 1, rev =>
    scheduleRev n
      (mod32 (mixE (rev.getD 1 0) + rev.getD 6 0 +
        mixA (rev.getD 14 0) + rev.getD 15 0) :: rev)

/-- The 64-entry message schedule of one block. -/
def msgSchedule (w16 : List Nat) : List Nat :=
  (scheduleRev 48 w16.reverse).reverse

/-- The eight 32-bit working variables / hash words. -/
structure Words8 where
  a : Nat
  b : Nat
  c : Nat
  d : Nat
  e : Nat
  f : Nat
  g : Nat
  hh : Nat
deriving Repr, DecidableEq

/-- The SHA-256 initial hash value, in decimal. -/
def initH : Words8 :=
  ⟨1779033703, 3144134277, 1013904242, 2773480762,
   1359893119, 2600822924, 528734635, 1541459225⟩

/-- One compression-function application. -/
def compressBlock (H : Words8) (block : List Nat) : Words8 :=
  let w := msgSchedule (toWords block)
  let s := (w.zip roundK).foldl
    (fun (s : Words8) (wk : Nat × Nat) =>
      let t1 := mod32 (s.hh + sumE s.e + chooseFn s.e s.f s.g + wk.2 + wk.1)
      let t2 := mod32 (sumA s.a + majorityFn s.a s.b s.c)
      ⟨mod32 (t1 + t2), s.a, s.b, s.c, mod32 (s.d + t1), s.e, s.f, s.g⟩)
    H
  ⟨mod32 (H.a + s.a), mod32 (H.b + s.b), mod32 (H.c + s.c), mod32 (H.d + s.d),
   mod32 (H.e + s.e), mod32 (H.f + s.f), mod32 (H.g + s.g), mod32 (H.hh + s.hh)⟩

/-- SHA-256 of a byte sequence. -/
def sha256 (msg : List Nat) : Words8 :=
  (chunks64 (padMessage msg)).foldl compressBlock initH

/-- Lowercase hexadecimal digit: codes 48–57 for 0–9, 97–102 for 10–15. -/
def hexDigitChar (n : Nat) : Char :=
  if n < 10 then Char.ofNat (48 + n) else Char.ofNat (87 + n)

/-- Lowercase 8-digit hexadecimal rendering of a 32-bit word, as produced
by Go's `fmt.Sprintf("%x", ...)` on the digest bytes. -/
def hex8 (n : Nat) : String :=
  String.mk ((List.range 8).map (fun i => hexDigitChar ((n >>> (28 - 4 * i)) &&& 15)))

/-- The 64-character lowercase hex rendering of a digest. -/
def digestHex (d : Words8) : String :=
  hex8 d.a ++ hex8 d.b ++ hex8 d.c ++ hex8 d.d ++
    hex8 d.e ++ hex8 d.f ++ hex8 d.g ++ hex8 d.hh

/-- UTF-8 encoding of one character (Go's `[]byte(string)`). -/
def utf8Bytes (c : Char) : List Nat :=
  let n := c.toNat
  if n < 128 then [n]
  else if n < 2048 then [192 ||| (n >>> 6), 128 ||| (n &&& 63)]
  else if n < 65536 then
    [224 ||| (n >>> 12), 128 ||| ((n >>> 6) &&& 63), 128 ||| (n &&& 63)]
  else
    [240 ||| (n >>> 18), 128 ||| ((n >>> 12) &&& 63),
     128 ||| ((n >>> 6) &&& 63), 128 ||| (n &&& 63)]

/-- UTF-8 bytes of a string. -/
def stringBytes (s : String) : List Nat :=
  s.data.foldr (fun c acc => utf8Bytes c ++ acc) []

end SHA256

namespace RateLimiter

/-- Model of `APIKeyService.hashAPIKey` (internal/services/api_key_service.go lines
416–419): `fmt.Sprintf("%x", sha256.Sum256([]byte(apiKey)))`, i.e. the
lowercase hexadecimal SHA-256 digest of the key's UTF-8 bytes. -/
def hashAPIKey (apiKey : String) : String :=
  SHA256.digestHex (SHA256.sha256 (SHA256.stringBytes apiKey))

/-- Model of `APIKeyService.ValidateAPIKey` (api_key_service.go lines 343–372) with
a reachable store: the `api_keys` table is modelled as a list of rows, and
the query `WHERE key_hash = $1 AND is_active = true` as `List.find?`.  An
empty result (`sql.ErrNoRows`) — whether the digest is unknown or the
matching row is inactive — yields the uniform "invalid API key" error. -/
def validateAPIKey (db : List APIKey) (apiKey : String) : Except String APIKey :=
  let keyHash := hashAPIKey apiKey
  match db.find? (fun r => r.keyHash == keyHash && r.isActive) with
  | some r => .ok r
  | none => .error "invalid API key"

/-- Model of `APIKeyService.DeactivateAPIKey` (api_key_service.go lines 394–414)
with a reachable store: `UPDATE api_keys SET is_active = false WHERE
key_hash = $1` flips every row whose hash matches (there is no
`is_active = true` filter), `RowsAffected` is the number of matched rows,
and zero matched rows yields the "API key not found" error. -/
def deactivateAPIKey (db : List APIKey) (apiKey : String) :
    Except String (List APIKey) :=
  let keyHash := hashAPIKey apiKey
  let rowsAffected := db.countP (fun r => r.keyHash == keyHash)
  if rowsAffected = 0 then .error "API key not found"
  else
    .ok (db.map (fun r =>
      if r.keyHash == keyHash then { r with isActive := false } else r))

end RateLimiter

namespace RateLimiter

set_option maxRecDepth 100000 in
/-- Sanity check of the SHA-256 embedding against the FIPS 180-4 test
vector for "abc". -/
theorem hashAPIKey_abc :
    hashAPIKey "abc"
      = "ba7816bf8f01cfea414140de5dae2223b00361a396177a9cb410ff61f20015ad" := by
  decide

/-- Claim C1: for every resolved credential and every count returned by the
counter store, the consuming check (`CheckRateLimit`) reports
`allowed = true` exactly when the post-increment count is at most the
effective limit, while the non-consuming check (`GetRateLimitStatus`) with
the same count reports `allowed = true` exactly when the count is strictly
below the effective limit; at `count = limit` the consuming check allows
and the status check denies. -/
theorem allowed_boundary_asymmetry (cfg : RateLimitConfig) (k : APIKey)
    (now c : Int) :
    (checkRateLimit cfg k now (.ok c)).map RateLimitResult.allowed
        = .ok (decide (c ≤ effectiveLimit cfg k))
    ∧ (getRateLimitStatus cfg k now (.ok c)).map RateLimitResult.allowed
        = .ok (decide (c < effectiveLimit cfg k))
    ∧ (checkRateLimit cfg k now (.ok (effectiveLimit cfg k))).map
        RateLimitResult.allowed = .ok true
    ∧ (getRateLimitStatus cfg k now (.ok (effectiveLimit cfg k))).map
        RateLimitResult.allowed = .ok false := by
  refine ⟨rfl, rfl, ?_, ?_⟩ <;>
    simp [checkRateLimit, getRateLimitStatus, Except.map]

/-- Claim C2: the `Remaining` field of the snapshot returned by both
`CheckRateLimit` and `GetRateLimitStatus` equals
`max 0 (limit - currentCount)` and is never negative, however far the count
exceeds the limit. -/
theorem remaining_clamped (cfg : RateLimitConfig) (k : APIKey) (now c : Int)
    (anyIncr anyPeek : Except String Int) :
    (checkRateLimit cfg k now (.ok c)).map RateLimitResult.remaining
        = .ok (max 0 (effectiveLimit cfg k - c))
    ∧ (getRateLimitStatus cfg k now (.ok c)).map RateLimitResult.remaining
        = .ok (max 0 (effectiveLimit cfg k - c))
    ∧ (∀ r, checkRateLimit cfg k now anyIncr = .ok r → 0 ≤ r.remaining)
    ∧ (∀ r, getRateLimitStatus cfg k now anyPeek = .ok r → 0 ≤ r.remaining) := by
  refine ⟨?_, ?_, ?_, ?_⟩
  · simp only [checkRateLimit, Except.map]
    congr 1
    omega
  · simp only [getRateLimitStatus, Except.map]
    congr 1
    omega
  · intro r h
    cases anyIncr with
    | error e => simp [checkRateLimit] at h
    | ok c' =>
      simp only [checkRateLimit, Except.ok.injEq] at h
      subst h
      dsimp only
      omega
  · intro r h
    simp only [getRateLimitStatus, Except.ok.injEq] at h
    subst h
    dsimp only
    omega

/-- Witness for `remaining_clamped`: a key with limit 10, a post-increment
count of 25, and the concrete snapshot that `CheckRateLimit` produces. -/
theorem remaining_clamped_witness :
    (checkRateLimit ⟨100, 3600000000000⟩ ⟨"id-2", "h2", "K2", 10, 60, true⟩ 0
        (.ok 25)).map RateLimitResult.remaining
      = .ok (max 0
          (effectiveLimit ⟨100, 3600000000000⟩ ⟨"id-2", "h2", "K2", 10, 60, true⟩ - 25))
    ∧ 0 ≤ (⟨false, 0, 60000000000, 10⟩ : RateLimitResult).remaining :=
  ⟨(remaining_clamped ⟨100, 3600000000000⟩ ⟨"id-2", "h2", "K2", 10, 60, true⟩ 0 25
      (.ok 25) (.ok 25)).1,
   (remaining_clamped ⟨100, 3600000000000⟩ ⟨"id-2", "h2", "K2", 10, 60, true⟩ 0 25
      (.ok 25) (.ok 25)).2.2.1 ⟨false, 0, 60000000000, 10⟩ rfl⟩

/-- Claim C6: a stored limit ≤ 0 is replaced by the default limit, a stored
window ≤ 0 by the default window, positive stored values are used
unchanged, and the `Limit` field of the snapshot returned by both
operations is exactly this effective limit. -/
theorem default_fallback (cfg : RateLimitConfig) (k : APIKey) (now c : Int) :
    (k.rateLimitRequests ≤ 0 → effectiveLimit cfg k = cfg.defaultRequests)
    ∧ (0 < k.rateLimitRequests → effectiveLimit cfg k = k.rateLimitRequests)
    ∧ (k.rateLimitWindowSeconds ≤ 0 → effectiveWindow cfg k = cfg.defaultWindow)
    ∧ (0 < k.rateLimitWindowSeconds →
        effectiveWindow cfg k = k.rateLimitWindowSeconds * nanosPerSecond)
    ∧ (checkRateLimit cfg k now (.ok c)).map RateLimitResult.limit
        = .ok (effectiveLimit cfg k)
    ∧ ∀ pk, (getRateLimitStatus cfg k now pk).map RateLimitResult.limit
        = .ok (effectiveLimit cfg k) := by
  refine ⟨?_, ?_, ?_, ?_, rfl, fun pk => rfl⟩
  · intro h
    simp [effectiveLimit, h]
  · intro h
    rw [effectiveLimit, if_neg (by omega)]
  · intro h
    rw [effectiveWindow]
    simp only [nanosPerSecond]
    rw [if_pos (by nlinarith)]
  · intro h
    rw [effectiveWindow]
    simp only [nanosPerSecond]
    rw [if_neg (by nlinarith)]

/-- Witness for `default_fallback`: a credential with both quota fields
unset (0) under the default configuration 100 requests / 1 hour; the
effective limit is the default 100, which is not zero. -/
theorem default_fallback_witness :
    effectiveLimit ⟨100, 3600000000000⟩ ⟨"id-1", "h1", "Unset", 0, 0, true⟩ = 100
    ∧ effectiveWindow ⟨100, 3600000000000⟩ ⟨"id-1", "h1", "Unset", 0, 0, true⟩
        = 3600000000000
    ∧ decide ((100 : Int) = 0) = false :=
  ⟨(default_fallback ⟨100, 3600000000000⟩ ⟨"id-1", "h1", "Unset", 0, 0, true⟩ 0 0).1
      (by decide),
   (default_fallback ⟨100, 3600000000000⟩ ⟨"id-1", "h1", "Unset", 0, 0, true⟩ 0 0).2.2.1
      (by decide),
   by decide⟩

/-- Claim C7: `GetRateLimitStatus` never returns an error, and when the
counter store fails (including the absent-key `redis.Nil` case) the count
degrades to 0, so — the effective limit being positive — the snapshot has
`allowed = true` and `remaining = limit`. -/
theorem status_never_errors (cfg : RateLimitConfig) (k : APIKey) (now : Int)
    (pk : Except String Int) (hpos : 0 < cfg.defaultRequests) :
    (∃ r, getRateLimitStatus cfg k now pk = .ok r)
    ∧ ∀ e r, getRateLimitStatus cfg k now (.error e) = .ok r →
        r.allowed = true ∧ r.remaining = r.limit := by
  constructor
  · exact ⟨_, rfl⟩
  · intro e r h
    have hL : 0 < effectiveLimit cfg k := by
      rw [effectiveLimit]
      split <;> omega
    simp only [getRateLimitStatus, Except.ok.injEq] at h
    subst h
    refine ⟨decide_eq_true hL, ?_⟩
    dsimp only
    omega

/-- Witness for `status_never_errors`: a key with limit 10 whose counter
the store has never seen (`redis: nil`), under a positive default. -/
theorem status_never_errors_witness :
    0 < (100 : Int)
    ∧ ∃ r, getRateLimitStatus ⟨100, 3600000000000⟩
          ⟨"id-7", "h7", "Fresh", 10, 60, true⟩ 0 (.error "redis: nil") = .ok r
        ∧ r.allowed = true ∧ r.remaining = r.limit := by
  have h := status_never_errors ⟨100, 3600000000000⟩
    ⟨"id-7", "h7", "Fresh", 10, 60, true⟩ 0 (.error "redis: nil") (by decide)
  refine ⟨by decide, ?_⟩
  obtain ⟨r, hr⟩ := h.1
  exact ⟨r, hr, h.2 "redis: nil" r hr⟩

end RateLimiter

namespace RateLimiter

/-- Claim C3 (evaluation at the failing input): the middleware bypasses the
health and metrics paths for every collaborator response, but an
administrative path such as `/admin/test` is *not* bypassed — with no
credential presented it is rejected with the authentication-required
outcome instead of proceeding to its handler. -/
theorem bypass_only_health_metrics :
    (∀ (v : Except String APIKey) (c : Except String RateLimitResult) (n : Int),
      rateLimitMW ⟨"/health", "", ""⟩ v c n = .bypass)
    ∧ (∀ (v : Except String APIKey) (c : Except String RateLimitResult) (n : Int),
      rateLimitMW ⟨"/metrics", "", ""⟩ v c n = .bypass)
    ∧ (∀ (v : Except String APIKey) (c : Except String RateLimitResult) (n : Int),
      rateLimitMW ⟨"/admin/test", "", ""⟩ v c n = .missingKey)
    ∧ (∀ (v : Except String APIKey) (c : Except String RateLimitResult) (n : Int),
      rateLimitMW ⟨"/admin/api-keys", "", ""⟩ v c n = .missingKey) := by
  refine ⟨fun v c n => rfl, fun v c n => rfl, fun v c n => ?_, fun v c n => ?_⟩ <;>
    · simp only [rateLimitMW]
      rw [if_neg (by decide)]
      rfl

/-- Claim C4 (evaluation at the failing input): incrementing the key
`rate_limit:a` while it already holds count 1 with 30 s of its window left
returns count 2 but also re-arms the expiry to the full 60 s window;
on an absent key the increment starts the counter at 1 and arms the
window, as claimed. -/
theorem increment_rearms_expiry :
    incrementRateLimit [("rate_limit:a", ⟨1, 30000000000⟩)] "rate_limit:a"
        60000000000
      = (2, [("rate_limit:a", ⟨2, 60000000000⟩)])
    ∧ incrementRateLimit [] "rate_limit:a" 60000000000
      = (1, [("rate_limit:a", ⟨1, 60000000000⟩)])
    ∧ decide ((30000000000 : Int) = 60000000000) = false := by
  refine ⟨?_, rfl, by decide⟩
  rw [incrementRateLimit]
  rfl

/-- Claim C5 counterexample: a request whose credential-registry lookup
fails because the backing store is unreachable is answered with the same
`invalidKey` (401 "Invalid API key") outcome as a plain bad key — not with
the distinct `quotaCheckFailed` outcome the claim requires for an
unreachable registry. -/
theorem registry_failure_is_auth_outcome :
    rateLimitMW ⟨"/api/test", "secret-key", ""⟩
        (.error "failed to validate API key: dial tcp 127.0.0.1:5432: connect: connection refused")
        (.error "unused") 0 = .invalidKey
    ∧ rateLimitMW ⟨"/api/test", "secret-key", ""⟩ (.error "invalid API key")
        (.error "unused") 0 = .invalidKey
    ∧ decide (MWOutcome.invalidKey = MWOutcome.quotaCheckFailed) = false := by
  refine ⟨?_, ?_, by decide⟩ <;>
    · simp only [rateLimitMW]
      rw [if_neg (by decide)]
      rfl

/-- Claim C5 as amended: a counter-store failure is surfaced as the
distinct quota-check-failed outcome (rejected, no retry), and the engine
propagates the increment failure as an error — never a snapshot with
`Allowed = true`; a registry failure, however, is collapsed into the same
authentication-failure outcome as an invalid key (also rejected, no
retry). -/
theorem backend_failure_fails_closed (req : Request) (rec k : APIKey)
    (cfg : RateLimitConfig) (e e' : String)
    (chk : Except String RateLimitResult) (now now1 : Int)
    (h1 : req.path ≠ "/health") (h2 : req.path ≠ "/metrics")
    (h3 : extractAPIKey req ≠ "") :
    rateLimitMW req (.ok rec) (.error e) now = .quotaCheckFailed
    ∧ rateLimitMW req (.error e') chk now = .invalidKey
    ∧ checkRateLimit cfg k now1 (.error e)
        = .error ("failed to check rate limit: " ++ e) := by
  have hp : ¬(req.path = "/health" ∨ req.path = "/metrics") := by
    rintro (h | h)
    · exact h1 h
    · exact h2 h
  refine ⟨?_, ?_, rfl⟩ <;>
    · simp only [rateLimitMW]
      rw [if_neg hp, if_neg h3]

/-- Witness for `backend_failure_fails_closed`: a concrete `/api/test`
request with an `X-API-Key` header whose counter-store call fails. -/
theorem backend_failure_fails_closed_witness :
    rateLimitMW ⟨"/api/test", "secret", ""⟩
        (.ok ⟨"id-3", "h3", "K3", 10, 60, true⟩)
        (.error "redis: connection refused") 0 = .quotaCheckFailed
    ∧ rateLimitMW ⟨"/api/test", "secret", ""⟩ (.error "invalid API key")
        (.error "redis: connection refused") 0 = .invalidKey
    ∧ checkRateLimit ⟨100, 3600000000000⟩ ⟨"id-3", "h3", "K3", 10, 60, true⟩ 0
        (.error "redis: connection refused")
        = .error ("failed to check rate limit: " ++ "redis: connection refused") :=
  backend_failure_fails_closed ⟨"/api/test", "secret", ""⟩
    ⟨"id-3", "h3", "K3", 10, 60, true⟩ ⟨"id-3", "h3", "K3", 10, 60, true⟩
    ⟨100, 3600000000000⟩ "redis: connection refused" "invalid API key"
    (.error "redis: connection refused") 0 0
    (by decide) (by decide) (by decide)

end RateLimiter

namespace RateLimiter

/-- Claim C8 counterexample: a credential with limit 5 / window 60 s whose
sixth request produced the rejected snapshot at time 0; if the middleware
computes `retry_after` 61 s later (more than the window after the snapshot
was taken) the value is -1 — negative, contradicting "never negative".  The
code has no clamp: `int(time.Until(resetTime).Seconds())` truncates toward
zero but may go below zero. -/
theorem retry_after_negative :
    checkRateLimit ⟨100, 3600000000000⟩ ⟨"id-5", "h5", "Small", 5, 60, true⟩ 0
        (.ok 6) = .ok ⟨false, 0, 60000000000, 5⟩
    ∧ rateLimitMW ⟨"/api/test", "secret", ""⟩
        (.ok ⟨"id-5", "h5", "Small", 5, 60, true⟩)
        (.ok ⟨false, 0, 60000000000, 5⟩) 61000000000
      = .rateLimited (-1)
    ∧ decide ((-1 : Int) < 0) = true := by
  refine ⟨rfl, ?_, by decide⟩
  simp only [rateLimitMW]
  rw [if_neg (by decide)]
  rfl

/-- Claim C8 as amended: for a request rejected on quota grounds,
`retry_after` equals the whole number of seconds until the snapshot's reset
time truncated toward zero; it never exceeds the effective window, and
whenever the rejection is computed no later than the window's end (elapsed
time δ ≤ W) it is non-negative — positive while at least one whole second
of the window remains.  (The code does not clamp: beyond the window the
value goes negative, as the counterexample shows.) -/
theorem retry_after_truncated_bounds (cfg : RateLimitConfig) (k rec : APIKey)
    (req : Request) (now1 δ c : Int) (r : RateLimitResult)
    (h1 : req.path ≠ "/health") (h2 : req.path ≠ "/metrics")
    (h3 : extractAPIKey req ≠ "")
    (hres : checkRateLimit cfg k now1 (.ok c) = .ok r)
    (hna : r.allowed = false)
    (hd0 : 0 ≤ δ) (hdW : δ ≤ effectiveWindow cfg k) :
    rateLimitMW req (.ok rec) (.ok r) (now1 + δ)
      = .rateLimited (Int.tdiv (effectiveWindow cfg k - δ) nanosPerSecond)
    ∧ 0 ≤ Int.tdiv (effectiveWindow cfg k - δ) nanosPerSecond
    ∧ Int.tdiv (effectiveWindow cfg k - δ) nanosPerSecond
        ≤ Int.tdiv (effectiveWindow cfg k) nanosPerSecond
    ∧ (δ + nanosPerSecond ≤ effectiveWindow cfg k →
        1 ≤ Int.tdiv (effectiveWindow cfg k - δ) nanosPerSecond) := by
  have hp : ¬(req.path = "/health" ∨ req.path = "/metrics") := by
    rintro (h | h)
    · exact h1 h
    · exact h2 h
  have hWd : 0 ≤ effectiveWindow cfg k - δ := by omega
  have hW : 0 ≤ effectiveWindow cfg k := by omega
  have hns : (0 : Int) < nanosPerSecond := by
    rw [nanosPerSecond]
    norm_num
  have hreset : r.resetTime = now1 + effectiveWindow cfg k := by
    simp only [checkRateLimit, Except.ok.injEq] at hres
    rw [← hres]
  refine ⟨?_, ?_, ?_, ?_⟩
  · simp only [rateLimitMW]
    rw [if_neg hp, if_neg h3, hna]
    simp only [Bool.not_false, if_pos]
    rw [retryAfterSeconds, hreset]
    have harg : now1 + effectiveWindow cfg k - (now1 + δ)
        = effectiveWindow cfg k - δ := by ring
    rw [harg]
  · exact Int.tdiv_nonneg hWd (le_of_lt hns)
  · rw [Int.tdiv_eq_ediv hWd (le_of_lt hns), Int.tdiv_eq_ediv hW (le_of_lt hns)]
    exact Int.ediv_le_ediv hns (by omega)
  · intro hsec
    rw [Int.tdiv_eq_ediv hWd (le_of_lt hns)]
    rw [Int.le_ediv_iff_mul_le hns]
    omega

/-- Witness for `retry_after_truncated_bounds`: the same limit-5, 60 s
credential rejected at count 6, with the middleware running one second
after the snapshot; `retry_after` is 59 seconds. -/
theorem retry_after_truncated_bounds_witness :
    rateLimitMW ⟨"/api/test", "secret", ""⟩
        (.ok ⟨"id-5", "h5", "Small", 5, 60, true⟩)
        (.ok ⟨false, 0, 60000000000, 5⟩) (0 + 1000000000)
      = .rateLimited 59 := by
  have h := (retry_after_truncated_bounds ⟨100, 3600000000000⟩
    ⟨"id-5", "h5", "Small", 5, 60, true⟩ ⟨"id-5", "h5", "Small", 5, 60, true⟩
    ⟨"/api/test", "secret", ""⟩ 0 1000000000 6 ⟨false, 0, 60000000000, 5⟩
    (by decide) (by decide) (by decide) rfl rfl (by decide) (by decide)).1
  rw [h]
  decide

end RateLimiter

namespace RateLimiter

/-- Claim C10: every record returned by a successful `ValidateAPIKey` is
active and carries exactly the SHA-256 hex digest of the presented key, and
whenever no *active* row matches the digest — whether the digest is unknown
or a matching row is inactive — the call returns the one uniform
"invalid API key" error. -/
theorem validate_returns_active_digest_match (db : List APIKey) (key : String) :
    (∀ r, validateAPIKey db key = .ok r →
      r.isActive = true ∧ r.keyHash = hashAPIKey key)
    ∧ ((∀ r ∈ db, r.keyHash = hashAPIKey key → r.isActive = false) →
        validateAPIKey db key = .error "invalid API key") := by
  constructor
  · intro r h
    cases hfind : List.find? (fun s => s.keyHash == hashAPIKey key && s.isActive) db with
    | none => simp [validateAPIKey, hfind] at h
    | some a =>
      have hp := List.find?_some hfind
      simp only [Bool.and_eq_true, beq_iff_eq] at hp
      simp only [validateAPIKey, hfind, Except.ok.injEq] at h
      subst h
      exact ⟨hp.2, hp.1⟩
  · intro hall
    have hnone : List.find? (fun s => s.keyHash == hashAPIKey key && s.isActive) db
        = none := by
      rw [List.find?_eq_none]
      intro x hx
      by_cases hkh : x.keyHash = hashAPIKey key
      · simp [hkh, hall x hx hkh]
      · simp [hkh]
    simp [validateAPIKey, hnone]

/-- Witness for `validate_returns_active_digest_match`: a single-row table
whose row carries the digest of `good-key` — active in the first part,
inactive in the second. -/
theorem validate_returns_active_digest_match_witness :
    ((⟨"id-a", hashAPIKey "good-key", "KA", 10, 60, true⟩ : APIKey).isActive = true
      ∧ (⟨"id-a", hashAPIKey "good-key", "KA", 10, 60, true⟩ : APIKey).keyHash
          = hashAPIKey "good-key")
    ∧ validateAPIKey [⟨"id-b", hashAPIKey "good-key", "KB", 10, 60, false⟩]
        "good-key" = .error "invalid API key" := by
  constructor
  · exact (validate_returns_active_digest_match
      [⟨"id-a", hashAPIKey "good-key", "KA", 10, 60, true⟩] "good-key").1
      ⟨"id-a", hashAPIKey "good-key", "KA", 10, 60, true⟩
      (by simp [validateAPIKey, List.find?])
  · exact (validate_returns_active_digest_match
      [⟨"id-b", hashAPIKey "good-key", "KB", 10, 60, false⟩] "good-key").2
      (by
        intro r hr hk
        simp only [List.mem_singleton] at hr
        subst hr
        rfl)

/-- Claim C9 counterexample: revoking a token whose only matching record is
already inactive succeeds (the `UPDATE ... WHERE key_hash = $1` still
matches the row, so `RowsAffected = 1`), whereas the claim says it must
fail with the not-found error. -/
theorem deactivate_inactive_succeeds :
    deactivateAPIKey [⟨"id-r", hashAPIKey "revoked-key", "KR", 10, 60, false⟩]
        "revoked-key"
      = .ok [⟨"id-r", hashAPIKey "revoked-key", "KR", 10, 60, false⟩] := by
  simp [deactivateAPIKey]

/-- Claim C9 as amended: `DeactivateAPIKey` returns the not-found error if
and only if no record at all — active or inactive — has a stored hash
matching the presented token's digest; when a matching record exists (even
one already inactive) the call succeeds and flips every matching record's
active flag to false. -/
theorem deactivate_not_found_iff_no_hash_match (db : List APIKey) (key : String) :
    (deactivateAPIKey db key = .error "API key not found"
      ↔ ∀ r ∈ db, r.keyHash ≠ hashAPIKey key)
    ∧ (∀ r ∈ db, r.keyHash = hashAPIKey key →
        deactivateAPIKey db key
          = .ok (db.map (fun s =>
              if s.keyHash == hashAPIKey key then { s with isActive := false }
              else s))) := by
  constructor
  · constructor
    · intro h r hr
      by_cases hc : db.countP (fun s => s.keyHash == hashAPIKey key) = 0
      · have := List.countP_eq_zero.mp hc r hr
        simpa [beq_iff_eq] using this
      · simp [deactivateAPIKey, if_neg hc] at h
        exact h r hr
    · intro hall
      have hc : db.countP (fun s => s.keyHash == hashAPIKey key) = 0 := by
        rw [List.countP_eq_zero]
        intro a ha
        simpa [beq_iff_eq] using hall a ha
      simp [deactivateAPIKey, hc]
  · intro r hr hk
    have hc : ¬ db.countP (fun s => s.keyHash == hashAPIKey key) = 0 := by
      intro h0
      exact absurd (List.countP_eq_zero.mp h0 r hr) (by simp [hk])
    simp only [deactivateAPIKey, if_neg hc]

/-- Witness for `deactivate_not_found_iff_no_hash_match`: revoking a
single active record flips its flag to false and succeeds. -/
theorem deactivate_not_found_iff_no_hash_match_witness :
    deactivateAPIKey [⟨"id-l", hashAPIKey "live-key", "KL", 10, 60, true⟩]
        "live-key"
      = .ok [⟨"id-l", hashAPIKey "live-key", "KL", 10, 60, false⟩] := by
  have h := (deactivate_not_found_iff_no_hash_match
      [⟨"id-l", hashAPIKey "live-key", "KL", 10, 60, true⟩] "live-key").2
      ⟨"id-l", hashAPIKey "live-key", "KL", 10, 60, true⟩ (by simp) rfl
  rw [h]
  simp

end RateLimiter
